import Mathlib

/-!
Shallow embedding of the job-portal HTTP backend (a single Express
application over a PostgreSQL `jobs`/`admins` schema) and proofs of the
specification claims about it.

Modelling conventions:
* JSON body fields are `JVal` — the JSON scalar values plus `undefined`
  (fields absent from the body).  Numbers are modelled as integers, the only
  numeric values the schema (INTEGER columns) and the claims involve.
* Query-string parameters are `Option String` (absent or a string), as
  delivered by the HTTP layer.
* The `jobs` table is a `List Job`; SQL timestamps are naturals supplied to
  each handler as a `now` parameter (CURRENT_TIMESTAMP).
* Each handler is a pure function from the table state and request data to a
  response and the new table state.  HTTP statuses are explicit naturals.
-/

/-- JSON scalar values as seen by the handlers, plus `undefined` for a field
absent from the request body. -/
inductive JVal where
  | undef
  | null
  | num (n : Int)
  | str (s : String)
  | jbool (b : Bool)
deriving Repr, DecidableEq

/-- JavaScript truthiness on the modelled values: `undefined`, `null`, `0`
and the empty string are falsy. -/
def truthy : JVal → Bool
  | .undef => false
  | .null => false
  | .num n => !(n == 0)
  | .str s => !(s == "")
  | .jbool b => b

/-- A value counts as supplied when it is neither `null` nor `undefined`
(the `!== null && !== undefined` tests in the salary validation). -/
def present : JVal → Bool
  | .undef => false
  | .null => false
  | _ => true

/-- Numeric value of a run of decimal digits. -/
def digitsVal (cs : List Char) : Nat :=
  cs.foldl (fun a c => a * 10 + (c.toNat - 48)) 0

/-- JavaScript `Number(s)` on integer-valued strings: trims spaces, the empty
string is `0`, an optional sign followed by digits is that integer, anything
else is NaN (`none`). -/
def jsStringToInt (s : String) : Option Int :=
  let cs := ((s.toList.dropWhile (fun c => c = ' ')).reverse.dropWhile
      (fun c => c = ' ')).reverse
  match cs with
  | [] => some 0
  | '-' :: ds =>
    if !ds.isEmpty && ds.all Char.isDigit then some (-(digitsVal ds : Int)) else none
  | '+' :: ds =>
    if !ds.isEmpty && ds.all Char.isDigit then some (digitsVal ds) else none
  | ds =>
    if ds.all Char.isDigit then some (digitsVal ds) else none

/-- JavaScript `Number(v)` on the modelled values; `none` is NaN. -/
def jsToNumber : JVal → Option Int
  | .undef => none
  | .null => some 0
  | .num n => some n
  | .jbool b => some (if b then 1 else 0)
  | .str s => jsStringToInt s

/-- JavaScript `parseInt(s, 10)`: skip leading whitespace, optional sign,
then the longest leading run of digits; NaN (`none`) when there is none. -/
def jsParseInt (s : String) : Option Int :=
  let cs := s.toList.dropWhile (fun c => c = ' ' || c = '\t' || c = '\n' || c = '\r')
  match cs with
  | '-' :: rest =>
    let ds := rest.takeWhile Char.isDigit
    if ds.isEmpty then none else some (-(digitsVal ds : Int))
  | '+' :: rest =>
    let ds := rest.takeWhile Char.isDigit
    if ds.isEmpty then none else some (digitsVal ds)
  | _ =>
    let ds := cs.takeWhile Char.isDigit
    if ds.isEmpty then none else some (digitsVal ds)

/-- The `q || d` fallback on a query parameter: an absent or empty-string
parameter falls back to the literal default. -/
def jsOrDefault (q : Option String) (d : String) : String :=
  match q with
  | none => d
  | some s => if s = "" then d else s

/-- The `n || d` fallback after `parseInt`: NaN and `0` are falsy and fall
back to the default. -/
def intOrDefault (v : Option Int) (d : Int) : Int :=
  match v with
  | none => d
  | some n => if n = 0 then d else n

/-- Effective page of a listing request:
`Math.max(1, parseInt(req.query.page || '1', 10) || 1)`. -/
def parsePage (q : Option String) : Int :=
  max 1 (intOrDefault (jsParseInt (jsOrDefault q "1")) 1)

/-- Effective limit of a listing request:
`Math.min(100, Math.max(1, parseInt(req.query.limit || '10', 10) || 10))`. -/
def parseLimit (q : Option String) : Int :=
  min 100 (max 1 (intOrDefault (jsParseInt (jsOrDefault q "10")) 10))

/-- A row of the `jobs` table (schema of `initDatabase`).  Timestamps are
naturals; `salary_min`/`salary_max` are nullable INTEGER columns. -/
structure Job where
  id : Nat
  title : String
  company : String
  location : String
  salary_min : Option Int
  salary_max : Option Int
  salary_currency : String
  job_type : String
  description : String
  requirements : Option String
  benefits : Option String
  contact_email : String
  contact_phone : Option String
  is_active : Bool
  created_at : Nat
  updated_at : Nat
deriving Repr, DecidableEq

/-- A row of the `admins` table. -/
structure Admin where
  id : Nat
  username : String
  password : String
  email : String
  created_at : Nat
deriving Repr, DecidableEq

/-- ASCII lowercase of one character (the case folding of SQL ILIKE on the
modelled alphabet). -/
def lowerChar (c : Char) : Char :=
  if 65 ≤ c.toNat && c.toNat ≤ 90 then Char.ofNat (c.toNat + 32) else c

/-- Whether the first character list starts the second. -/
def isLeadOf : List Char → List Char → Bool
  | [], _ => true
  | _ :: _, [] => false
  | p :: ps, h :: hs => p == h && isLeadOf ps hs

/-- Whether the first character list occurs inside the second. -/
def isPartOf (p : List Char) : List Char → Bool
  | [] => p.isEmpty
  | h :: hs => isLeadOf p (h :: hs) || isPartOf p hs

/-- Case-insensitive substring test: `column ILIKE '%pat%'` for a pattern
without wildcard characters. -/
def containsCI (hay pat : String) : Bool :=
  isPartOf (pat.toList.map lowerChar) (hay.toList.map lowerChar)

/-- Search filter of the listings: when a non-empty `search` parameter is
given, `title ILIKE '%search%' OR company ILIKE '%search%'`. -/
def matchSearch (q : Option String) (j : Job) : Bool :=
  match q with
  | none => true
  | some s => if s = "" then true else containsCI j.title s || containsCI j.company s

/-- Location filter of the public listing: `location ILIKE '%loc%'`. -/
def matchLocation (q : Option String) (j : Job) : Bool :=
  match q with
  | none => true
  | some s => if s = "" then true else containsCI j.location s

/-- Job-type filter of the public listing: `job_type = $n`, exact match. -/
def matchJobType (q : Option String) (j : Job) : Bool :=
  match q with
  | none => true
  | some s => if s = "" then true else j.job_type == s

/-- Row predicate of the public listing query:
`is_active = true` plus the three optional filters. -/
def publicFilter (search location job_type : Option String) (j : Job) : Bool :=
  j.is_active && matchSearch search j && matchLocation location j && matchJobType job_type j

/-- Insert a job into a list that is sorted by `created_at` descending. -/
def insertByCreated (j : Job) : List Job → List Job
  | [] => [j]
  | x :: xs => if x.created_at ≤ j.created_at then j :: x :: xs else x :: insertByCreated j xs

/-- The `ORDER BY created_at DESC` of the listing queries. -/
def sortByCreatedDesc : List Job → List Job
  | [] => []
  | x :: xs => insertByCreated x (sortByCreatedDesc xs)

/-- The `Math.ceil(totalJobs / limitInt)` page count. -/
def jsCeilDiv (a b : Nat) : Nat := (a + b - 1) / b

/-- Response of GET /api/jobs. -/
structure ListingResult where
  jobs : List Job
  currentPage : Int
  totalPages : Nat
  totalJobs : Nat
  hasNext : Bool
  hasPrev : Bool
deriving Repr, DecidableEq

/-- Response of GET /api/admin/jobs (no hasNext/hasPrev). -/
structure AdminListingResult where
  jobs : List Job
  currentPage : Int
  totalPages : Nat
  totalJobs : Nat
deriving Repr, DecidableEq

/-- GET /api/jobs: filter to active rows plus the optional search, location
and job_type filters, order by `created_at` descending, paginate with the
sanitized page and limit, and count the total with the same filters.  (The
SQL projection omits the `is_active` column from the returned rows; rows are
modelled whole here, which jobs are returned being what matters.) -/
def publicListing (db : List Job)
    (search location job_type pageQ limitQ : Option String) : ListingResult :=
  let pageInt := parsePage pageQ
  let limitInt := parseLimit limitQ
  let offset := ((pageInt - 1) * limitInt).toNat
  let filtered := db.filter (publicFilter search location job_type)
  let rows := ((sortByCreatedDesc filtered).drop offset).take limitInt.toNat
  let totalJobs := filtered.length
  let totalPages := jsCeilDiv totalJobs limitInt.toNat
  { jobs := rows
    currentPage := pageInt
    totalPages := totalPages
    totalJobs := totalJobs
    hasNext := pageInt < (totalPages : Int)
    hasPrev := 1 < pageInt }

/-- GET /api/admin/jobs: like the public listing but with no `is_active`
filter and only the search filter. -/
def adminListing (db : List Job) (search pageQ limitQ : Option String) :
    AdminListingResult :=
  let pageInt := parsePage pageQ
  let limitInt := parseLimit limitQ
  let offset := ((pageInt - 1) * limitInt).toNat
  let filtered := db.filter (matchSearch search)
  let rows := ((sortByCreatedDesc filtered).drop offset).take limitInt.toNat
  let totalJobs := filtered.length
  { jobs := rows
    currentPage := pageInt
    totalPages := jsCeilDiv totalJobs limitInt.toNat
    totalJobs := totalJobs }

/-- Response of the single-job handlers: HTTP status, message of the JSON
body (empty when the handler returns the bare row), and the returned row if
any. -/
structure ApiResponse where
  status : Nat
  message : String
  job : Option Job
deriving Repr, DecidableEq

/-- GET /api/jobs/:id — `SELECT * FROM jobs WHERE id = $1 AND is_active =
true`; 404 when no row matches. -/
def publicJobDetail (db : List Job) (i : Nat) : ApiResponse :=
  match (db.filter (fun j => j.id == i && j.is_active)).head? with
  | none => { status := 404, message := "Không tìm thấy công việc", job := none }
  | some j => { status := 200, message := "", job := some j }

/-- GET /api/admin/jobs/:id — `SELECT * FROM jobs WHERE id = $1`; no
activity restriction. -/
def adminJobDetail (db : List Job) (i : Nat) : ApiResponse :=
  match (db.filter (fun j => j.id == i)).head? with
  | none => { status := 404, message := "Không tìm thấy công việc", job := none }
  | some j => { status := 200, message := "", job := some j }

/-- Request body of the create and update handlers (the update handler also
reads `is_active`, modelled on its boolean-or-absent domain; the create
handler ignores it). -/
structure JobReq where
  title : JVal
  company : JVal
  location : JVal
  salary_min : JVal
  salary_max : JVal
  salary_currency : JVal
  job_type : JVal
  description : JVal
  requirements : JVal
  benefits : JVal
  contact_phone : JVal
  contact_email : JVal
  is_active : Option Bool
deriving Repr, DecidableEq

/-- The required-field check
`if (!title || !company || !location || !description || !contact_email)`. -/
def requiredMissing (r : JobReq) : Bool :=
  !truthy r.title || !truthy r.company || !truthy r.location ||
    !truthy r.description || !truthy r.contact_email

/-- The salary-range check: when both bounds are supplied and both convert
to numbers emptily of NaN, reject `min > max`. -/
def salaryRangeBad (smin smax : JVal) : Bool :=
  present smin && present smax &&
    match jsToNumber smin, jsToNumber smax with
    | some a, some b => decide (b < a)
    | _, _ => false

/-- Serialization of a truthy scalar as a query parameter bound to a text
column (node-postgres sends numbers and booleans as their decimal/keyword
strings). -/
def toStr : JVal → String
  | .str s => s
  | .num n => toString n
  | .jbool b => if b then "true" else "false"
  | .null => ""
  | .undef => ""

/-- Storage of `v || null` into a nullable INTEGER column: a falsy value
becomes NULL, a truthy one its numeric value. -/
def storeSalary (v : JVal) : Option Int :=
  if truthy v then jsToNumber v else none

/-- Storage of `v || null` into a nullable text column. -/
def storeText (v : JVal) : Option String :=
  if truthy v then some (toStr v) else none

/-- Storage of `v || d` into a defaulted text column. -/
def textOrDefault (v : JVal) (d : String) : String :=
  if truthy v then toStr v else d

/-- A truthy salary bound that is not numeric would make the INTEGER-column
cast fail inside the database (the handler's catch turns that into a 500);
this guard marks the parameter as castable. -/
def intColumnOk (v : JVal) : Bool :=
  !truthy v || (jsToNumber v).isSome

/-- POST /api/admin/jobs: required-field check, salary-range check, then
`INSERT ... RETURNING *`.  The insert does not mention `is_active`,
`created_at` or `updated_at`, so the row gets the schema defaults (`true`,
CURRENT_TIMESTAMP); `nextId` is the SERIAL key. -/
def createJob (db : List Job) (r : JobReq) (now nextId : Nat) :
    ApiResponse × List Job :=
  if requiredMissing r then
    ({ status := 400, message := "Tiêu đề, công ty, địa điểm, mô tả và email liên hệ là bắt buộc",
       job := none }, db)
  else if salaryRangeBad r.salary_min r.salary_max then
    ({ status := 400, message := "Lương tối thiểu không được lớn hơn lương tối đa",
       job := none }, db)
  else if !(intColumnOk r.salary_min && intColumnOk r.salary_max) then
    ({ status := 500, message := "Lỗi server", job := none }, db)
  else
    let row : Job :=
      { id := nextId
        title := toStr r.title
        company := toStr r.company
        location := toStr r.location
        salary_min := storeSalary r.salary_min
        salary_max := storeSalary r.salary_max
        salary_currency := textOrDefault r.salary_currency "VND"
        job_type := textOrDefault r.job_type "Full-time"
        description := toStr r.description
        requirements := storeText r.requirements
        benefits := storeText r.benefits
        contact_email := toStr r.contact_email
        contact_phone := storeText r.contact_phone
        is_active := true
        created_at := now
        updated_at := now }
    ({ status := 201, message := "Tạo công việc thành công", job := some row }, db ++ [row])

/-- The SET clause of the update: every mutable column is replaced from the
request (with the same `|| null` / `|| default` coalescing as create),
`is_active` becomes `true` exactly when the request leaves it undefined, and
`updated_at` is bumped; `id` and `created_at` are untouched. -/
def applyUpdate (old : Job) (r : JobReq) (now : Nat) : Job :=
  { old with
    title := toStr r.title
    company := toStr r.company
    location := toStr r.location
    salary_min := storeSalary r.salary_min
    salary_max := storeSalary r.salary_max
    salary_currency := textOrDefault r.salary_currency "VND"
    job_type := textOrDefault r.job_type "Full-time"
    description := toStr r.description
    requirements := storeText r.requirements
    benefits := storeText r.benefits
    contact_email := toStr r.contact_email
    contact_phone := storeText r.contact_phone
    is_active := r.is_active.getD true
    updated_at := now }

/-- PUT /api/admin/jobs/:id: the same validation as create, then
`UPDATE ... WHERE id = $14 RETURNING *`; 404 when no row has the id,
otherwise the (first) updated row is returned. -/
def updateJob (db : List Job) (i : Nat) (r : JobReq) (now : Nat) :
    ApiResponse × List Job :=
  if requiredMissing r then
    ({ status := 400, message := "Tiêu đề, công ty, địa điểm, mô tả và email liên hệ là bắt buộc",
       job := none }, db)
  else if salaryRangeBad r.salary_min r.salary_max then
    ({ status := 400, message := "Lương tối thiểu không được lớn hơn lương tối đa",
       job := none }, db)
  else if !(intColumnOk r.salary_min && intColumnOk r.salary_max) then
    ({ status := 500, message := "Lỗi server", job := none }, db)
  else
    match (db.filter (fun j => j.id == i)).head? with
    | none => ({ status := 404, message := "Không tìm thấy công việc", job := none }, db)
    | some old =>
      ({ status := 200, message := "Cập nhật công việc thành công",
         job := some (applyUpdate old r now) },
       db.map (fun j => if j.id == i then applyUpdate j r now else j))

/-- The SET clause of the toggle: `is_active = NOT is_active,
updated_at = CURRENT_TIMESTAMP`. -/
def applyToggle (j : Job) (now : Nat) : Job :=
  { j with is_active := !j.is_active, updated_at := now }

/-- PATCH /api/admin/jobs/:id/toggle: flip `is_active` in place and bump
`updated_at`; 404 when no row has the id; the message names the new state. -/
def toggleJob (db : List Job) (i : Nat) (now : Nat) : ApiResponse × List Job :=
  match (db.filter (fun j => j.id == i)).head? with
  | none => ({ status := 404, message := "Không tìm thấy công việc", job := none }, db)
  | some old =>
    let row := applyToggle old now
    ({ status := 200,
       message := (if row.is_active then "Kích hoạt" else "Vô hiệu hóa") ++ " công việc thành công",
       job := some row },
     db.map (fun j => if j.id == i then applyToggle j now else j))

/-- The payload a signed token carries. -/
structure TokenPayload where
  id : Nat
  username : String
  iat : Nat
  exp : Nat
deriving Repr, DecidableEq

/-- Modelled from the spec: the jsonwebtoken library is not part of this
repository; per the spec the issuer signs a token embedding the admin id and
username plus issued-at and a fixed 24-hour expiry
(`jwt.sign({id, username}, secret, {expiresIn: '24h'})`). -/
def signToken (adminId : Nat) (adminUsername : String) (now : Nat) : TokenPayload :=
  { id := adminId, username := adminUsername, iat := now, exp := now + 24 * 3600 }

/-- Modelled from the spec: the validator fails on an absent, malformed or
expired token; on a well-signed token it fails exactly when the current time
has reached the expiry, and otherwise yields the decoded payload. -/
def verifyToken (tok : TokenPayload) (now : Nat) : Option TokenPayload :=
  if now < tok.exp then some tok else none

/-- Helper of `splitOnSpace`: cut the remaining characters at every space,
the current fragment accumulated in reverse. -/
def splitOnSpaceAux : List Char → List Char → List String
  | [], acc => [String.mk acc.reverse]
  | c :: cs, acc =>
    if c = ' ' then String.mk acc.reverse :: splitOnSpaceAux cs []
    else splitOnSpaceAux cs (c :: acc)

/-- JavaScript `s.split(' ')`. -/
def splitOnSpace (s : String) : List String := splitOnSpaceAux s.toList []

/-- Token extraction of the auth middleware:
`authHeader && authHeader.split(' ')[1]`, where a missing header, a missing
second component or an empty one all leave the token falsy. -/
def extractToken (authHeader : Option String) : Option String :=
  match authHeader with
  | none => none
  | some h =>
    if h = "" then none
    else
      match (splitOnSpace h).get? 1 with
      | none => none
      | some t => if t = "" then none else some t

/-- Outcome of a request to a protected route: denied by the middleware with
a status and message, or handled with the handler's result. -/
inductive GateResult (α : Type) where
  | denied (status : Nat) (message : String)
  | handled (result : α)
deriving Repr, DecidableEq

/-- The `authenticateToken` middleware in front of a handler: no token gives
401, a token the verifier rejects gives 403, and otherwise the decoded user
is attached to the request and the handler runs.  The verifier
(`jwt.verify` with the server secret) is a parameter. -/
def runProtected (verify : String → Option TokenPayload)
    (authHeader : Option String) (handler : TokenPayload → α) : GateResult α :=
  match extractToken authHeader with
  | none => .denied 401 "Access token required"
  | some t =>
    match verify t with
    | none => .denied 403 "Invalid token"
    | some u => .handled (handler u)

/-- Response of POST /api/auth/login. -/
inductive LoginResult where
  | fail (status : Nat) (message : String)
  | success (message : String) (token : TokenPayload)
      (adminId : Nat) (adminUsername adminEmail : String)
deriving Repr, DecidableEq

/-- POST /api/auth/login: 400 when username or password is falsy, 401 with
one message when no admin row has the username, 401 with another when the
bcrypt comparison rejects the password, and otherwise a success body with a
token signed for the admin.  The bcrypt comparison of submitted password
against stored hash is a parameter. -/
def login (admins : List Admin) (bcryptCompare : String → String → Bool)
    (username password : Option String) (now : Nat) : LoginResult :=
  let ubad := match username with | none => true | some u => u = ""
  let pbad := match password with | none => true | some p => p = ""
  if ubad || pbad then .fail 400 "Username và password là bắt buộc"
  else
    let u := username.getD ""
    let p := password.getD ""
    match (admins.filter (fun a => a.username == u)).head? with
    | none => .fail 401 "Tài khoản không tồn tại"
    | some admin =>
      if bcryptCompare p admin.password then
        .success "Đăng nhập thành công" (signToken admin.id admin.username now)
          admin.id admin.username admin.email
      else .fail 401 "Mật khẩu không đúng"

/-! Helper lemmas about the embedding. -/

theorem insertByCreated_perm (j : Job) (l : List Job) :
    (insertByCreated j l).Perm (j :: l) := by
  induction l with
  | nil => simp [insertByCreated]
  | cons x xs ih =>
    by_cases h : x.created_at ≤ j.created_at
    · simp [insertByCreated, h]
    · simp only [insertByCreated, if_neg h]
      exact (ih.cons x).trans (List.Perm.swap j x xs)

theorem sortByCreatedDesc_perm (l : List Job) : (sortByCreatedDesc l).Perm l := by
  induction l with
  | nil => simp [sortByCreatedDesc]
  | cons x xs ih =>
    exact (insertByCreated_perm x (sortByCreatedDesc xs)).trans (ih.cons x)

theorem mem_sortByCreatedDesc {x : Job} {l : List Job} :
    x ∈ sortByCreatedDesc l ↔ x ∈ l :=
  (sortByCreatedDesc_perm l).mem_iff

theorem mem_of_mem_pageRows {x : Job} {l : List Job} {o n : Nat}
    (hx : x ∈ (l.drop o).take n) : x ∈ l :=
  List.mem_of_mem_drop (List.mem_of_mem_take hx)

theorem filter_by_id (db : List Job) (j : Job) (hj : j ∈ db)
    (hn : (db.map Job.id).Nodup) :
    db.filter (fun x => x.id == j.id) = [j] := by
  induction db with
  | nil => cases hj
  | cons a l ih =>
    simp only [List.map_cons, List.nodup_cons] at hn
    obtain ⟨ha, hl⟩ := hn
    rcases List.mem_cons.mp hj with rfl | hjl
    · have hnil : l.filter (fun x => x.id == j.id) = [] := by
        rw [List.filter_eq_nil_iff]
        intro x hx
        simp only [beq_iff_eq]
        intro hxe
        exact ha (hxe ▸ List.mem_map_of_mem Job.id hx)
      simp [List.filter_cons, hnil]
    · have hne : ¬ (a.id = j.id) := by
        intro he
        exact ha (he ▸ List.mem_map_of_mem Job.id hjl)
      rw [List.filter_cons]
      simp only [beq_iff_eq, hne, if_false]
      exact ih hjl hl

theorem mem_id_unique {db : List Job} {x j : Job}
    (hn : (db.map Job.id).Nodup) (hx : x ∈ db) (hj : j ∈ db)
    (he : x.id = j.id) : x = j :=
  List.inj_on_of_nodup_map hn hx hj he

theorem map_preserving_ids (db : List Job) (g : Job → Job)
    (h : ∀ x, (g x).id = x.id) :
    (db.map g).map Job.id = db.map Job.id := by
  rw [List.map_map]
  exact List.map_congr_left (fun x _ => h x)

/-! Claim C1. -/

/-- C1 counterexample: the claim states that a request with `limit=-5`
behaves as `limit=10` (the default), but the sanitization
`Math.min(100, Math.max(1, parseInt('-5', 10) || 10))` keeps the truthy
`-5` and clamps it to the lower bound `1`, not to the default `10`. -/
theorem C1_counterexample : parseLimit (some "-5") = 1 ∧ parseLimit (some "-5") ≠ 10 := by
  decide

/-- C1 (amended): for every public or admin listing request the effective
limit is clamped into [1,100] and the effective page is at least 1;
non-numeric page/limit values silently fall back to the defaults (page 1,
limit 10); a negative limit such as `-5` is clamped to `1` (not to the
default), `limit=500` behaves as `limit=100`, and the returned jobs array
never has more than the effective limit of elements. -/
theorem C1_pagination_sanitized :
    (∀ q : Option String, 1 ≤ parseLimit q ∧ parseLimit q ≤ 100 ∧ 1 ≤ parsePage q)
    ∧ parsePage (some "abc") = 1
    ∧ parseLimit (some "xyz") = 10
    ∧ parsePage (some "-7") = 1
    ∧ parseLimit (some "-5") = 1
    ∧ parseLimit (some "500") = 100
    ∧ parsePage none = 1
    ∧ parseLimit none = 10
    ∧ (∀ db search location job_type pageQ limitQ,
        (publicListing db search location job_type pageQ limitQ).jobs.length
          ≤ (parseLimit limitQ).toNat)
    ∧ (∀ db search pageQ limitQ,
        (adminListing db search pageQ limitQ).jobs.length ≤ (parseLimit limitQ).toNat) := by
  refine ⟨?_, by decide, by decide, by decide, by decide, by decide, by decide, by decide,
    ?_, ?_⟩
  · intro q
    unfold parseLimit parsePage
    omega
  · intro db search location job_type pageQ limitQ
    simp only [publicListing]
    exact List.length_take_le _ _
  · intro db search pageQ limitQ
    simp only [adminListing]
    exact List.length_take_le _ _

/-! Claim C2. -/

/-- C2: the public listing returns only jobs with `is_active = true` while
the admin listing returns jobs regardless of `is_active` (an inactive row is
returned by the admin listing and omitted by the public one); the public
detail lookup on the id of an inactive job returns 404 while the admin
detail lookup on the same id returns the job with 200. -/
theorem C2_public_admin_visibility (db : List Job) (j : Job) (hj : j ∈ db)
    (hact : j.is_active = false) (hn : (db.map Job.id).Nodup) :
    (∀ search location job_type pageQ limitQ x,
        x ∈ (publicListing db search location job_type pageQ limitQ).jobs →
          x.is_active = true)
    ∧ (adminListing [j] none none none).jobs = [j]
    ∧ (publicListing [j] none none none none none).jobs = []
    ∧ publicJobDetail db j.id =
        { status := 404, message := "Không tìm thấy công việc", job := none }
    ∧ adminJobDetail db j.id = { status := 200, message := "", job := some j } := by
  refine ⟨?_, ?_, ?_, ?_, ?_⟩
  · intro search location job_type pageQ limitQ x hx
    simp only [publicListing] at hx
    have hx2 := mem_sortByCreatedDesc.mp (mem_of_mem_pageRows hx)
    have hx3 := List.of_mem_filter hx2
    simp only [publicFilter, Bool.and_eq_true] at hx3
    exact hx3.1.1.1
  · rfl
  · simp [publicListing, publicFilter, hact, sortByCreatedDesc]
  · unfold publicJobDetail
    have hnil : db.filter (fun x => x.id == j.id && x.is_active) = [] := by
      rw [List.filter_eq_nil_iff]
      intro x hx
      simp only [Bool.and_eq_true, beq_iff_eq, not_and]
      intro he
      have hxj : x = j := mem_id_unique hn hx hj he
      rw [hxj, hact]
      simp
    rw [hnil]
    rfl
  · unfold adminJobDetail
    rw [filter_by_id db j hj hn]
    rfl

/-- C2 witness: a one-row table whose job is inactive. -/
def sampleInactiveJob : Job :=
  { id := 1, title := "Engineer", company := "Acme", location := "Hanoi"
    salary_min := none, salary_max := none, salary_currency := "VND"
    job_type := "Full-time", description := "Build things"
    requirements := none, benefits := none
    contact_email := "hr@acme.com", contact_phone := none
    is_active := false, created_at := 0, updated_at := 0 }

/-- C2 instantiated on a concrete one-row table. -/
theorem C2_witness :
    (∀ search location job_type pageQ limitQ x,
        x ∈ (publicListing [sampleInactiveJob] search location job_type pageQ limitQ).jobs →
          x.is_active = true)
    ∧ (adminListing [sampleInactiveJob] none none none).jobs = [sampleInactiveJob]
    ∧ (publicListing [sampleInactiveJob] none none none none none).jobs = []
    ∧ publicJobDetail [sampleInactiveJob] sampleInactiveJob.id =
        { status := 404, message := "Không tìm thấy công việc", job := none }
    ∧ adminJobDetail [sampleInactiveJob] sampleInactiveJob.id =
        { status := 200, message := "", job := some sampleInactiveJob } :=
  C2_public_admin_visibility [sampleInactiveJob] sampleInactiveJob
    (by decide) (by decide) (by decide)

/-! Claim C3. -/

/-- C3: an authenticated create request whose `salary_min` and `salary_max`
are both present numbers with `salary_min > salary_max` gets a 400 with the
salary message and leaves the jobs table unchanged; the same validation and
outcome apply to update. -/
theorem C3_salary_range_rejected (db : List Job) (r : JobReq) (now nextId i : Nat)
    (a b : Int) (hmin : r.salary_min = .num a) (hmax : r.salary_max = .num b)
    (hgt : b < a) (hreq : requiredMissing r = false) :
    createJob db r now nextId =
      ({ status := 400, message := "Lương tối thiểu không được lớn hơn lương tối đa",
         job := none }, db)
    ∧ updateJob db i r now =
      ({ status := 400, message := "Lương tối thiểu không được lớn hơn lương tối đa",
         job := none }, db) := by
  have hbad : salaryRangeBad r.salary_min r.salary_max = true := by
    rw [hmin, hmax]
    simp [salaryRangeBad, present, jsToNumber, hgt]
  refine ⟨?_, ?_⟩ <;> simp [createJob, updateJob, hreq, hbad]

/-- C3 witness request: salary_min 5 above salary_max 3. -/
def sampleBadSalaryReq : JobReq :=
  { title := .str "Engineer", company := .str "Acme", location := .str "Hanoi"
    salary_min := .num 5, salary_max := .num 3, salary_currency := .undef
    job_type := .undef, description := .str "Build things"
    requirements := .undef, benefits := .undef, contact_phone := .undef
    contact_email := .str "hr@acme.com", is_active := none }

/-- C3 instantiated on an empty table and the witness request. -/
theorem C3_witness :
    createJob [] sampleBadSalaryReq 0 1 =
      ({ status := 400, message := "Lương tối thiểu không được lớn hơn lương tối đa",
         job := none }, [])
    ∧ updateJob [] 1 sampleBadSalaryReq 0 =
      ({ status := 400, message := "Lương tối thiểu không được lớn hơn lương tối đa",
         job := none }, []) :=
  C3_salary_range_rejected [] sampleBadSalaryReq 0 1 1 5 3 rfl rfl (by decide) (by decide)

/-! Claim C4. -/

/-- C4: an update that passes validation returns 404 and changes nothing
when no row has the id; otherwise it replaces every mutable column of the
row from the request (fields not sent become null, `is_active` becomes true
when left undefined), bumps `updated_at`, keeps `id` and `created_at`, and
returns the updated row. -/
theorem C4_update_full_replace (db : List Job) (i : Nat) (r : JobReq) (now : Nat)
    (hreq : requiredMissing r = false)
    (hsal : salaryRangeBad r.salary_min r.salary_max = false)
    (hok : (intColumnOk r.salary_min && intColumnOk r.salary_max) = true) :
    ((∀ x ∈ db, x.id ≠ i) →
      updateJob db i r now =
        ({ status := 404, message := "Không tìm thấy công việc", job := none }, db))
    ∧ (∀ j, j ∈ db → j.id = i → (db.map Job.id).Nodup →
        updateJob db i r now =
          ({ status := 200, message := "Cập nhật công việc thành công",
             job := some (applyUpdate j r now) },
           db.map (fun x => if x.id == i then applyUpdate x r now else x))
        ∧ (applyUpdate j r now).title = toStr r.title
        ∧ (applyUpdate j r now).salary_min = storeSalary r.salary_min
        ∧ (applyUpdate j r now).is_active = r.is_active.getD true
        ∧ (applyUpdate j r now).updated_at = now
        ∧ (applyUpdate j r now).created_at = j.created_at
        ∧ (applyUpdate j r now).id = j.id
        ∧ (r.salary_min = .undef → (applyUpdate j r now).salary_min = none)
        ∧ (r.requirements = .undef → (applyUpdate j r now).requirements = none)
        ∧ (r.is_active = none → (applyUpdate j r now).is_active = true)) := by
  constructor
  · intro hnone
    have hnil : db.filter (fun x => x.id == i) = [] := by
      rw [List.filter_eq_nil_iff]
      intro x hx
      simp only [beq_iff_eq]
      exact hnone x hx
    simp [updateJob, hreq, hsal, hok, hnil]
  · intro j hj hid hn
    have hfil : db.filter (fun x => x.id == i) = [j] := by
      rw [← hid]
      exact filter_by_id db j hj hn
    refine ⟨?_, rfl, rfl, rfl, rfl, rfl, rfl, ?_, ?_, ?_⟩
    · simp [updateJob, hreq, hsal, hok, hfil]
    · intro h
      simp [applyUpdate, storeSalary, h, truthy]
    · intro h
      simp [applyUpdate, storeText, h, truthy]
    · intro h
      simp [applyUpdate, h]

/-- C4 and C10 witness request: valid, with every optional field present but
falsy. -/
def sampleFalsyReq : JobReq :=
  { title := .str "Engineer", company := .str "Acme", location := .str "Hanoi"
    salary_min := .num 0, salary_max := .num 0, salary_currency := .str ""
    job_type := .str "", description := .str "Build things"
    requirements := .str "", benefits := .str "", contact_phone := .str ""
    contact_email := .str "hr@acme.com", is_active := none }

/-- C4 instantiated: 404 on an empty table, full replace on a one-row
table. -/
theorem C4_witness :
    updateJob [] 1 sampleFalsyReq 5 =
      ({ status := 404, message := "Không tìm thấy công việc", job := none }, [])
    ∧ updateJob [sampleInactiveJob] 1 sampleFalsyReq 5 =
      ({ status := 200, message := "Cập nhật công việc thành công",
         job := some (applyUpdate sampleInactiveJob sampleFalsyReq 5) },
       [sampleInactiveJob].map
         (fun x => if x.id == 1 then applyUpdate x sampleFalsyReq 5 else x)) :=
  ⟨(C4_update_full_replace [] 1 sampleFalsyReq 5 (by decide) (by decide) (by decide)).1
      (by decide),
   ((C4_update_full_replace [sampleInactiveJob] 1 sampleFalsyReq 5 (by decide) (by decide)
      (by decide)).2 sampleInactiveJob (by decide) (by decide) (by decide)).1⟩

/-! Claim C5. -/

/-- Toggling an id that is present (under unique ids) flips that row and
returns it. -/
theorem toggleJob_found (db : List Job) (j : Job) (t : Nat) (hj : j ∈ db)
    (hn : (db.map Job.id).Nodup) :
    toggleJob db j.id t =
      ({ status := 200,
         message := (if (applyToggle j t).is_active then "Kích hoạt" else "Vô hiệu hóa")
           ++ " công việc thành công",
         job := some (applyToggle j t) },
       db.map (fun x => if x.id == j.id then applyToggle x t else x)) := by
  unfold toggleJob
  rw [filter_by_id db j hj hn]
  rfl

/-- C5: toggling an existing job twice returns `is_active` to its original
value, `updated_at` strictly increases on each application (under a strictly
increasing clock), each response carries the updated row and a message
reflecting the new state, and toggling an absent id returns 404 and changes
nothing. -/
theorem C5_toggle_twice (db : List Job) (j : Job) (t1 t2 : Nat)
    (hj : j ∈ db) (hn : (db.map Job.id).Nodup)
    (h0 : j.updated_at < t1) (h12 : t1 < t2) :
    (toggleJob db j.id t1).1 =
      { status := 200,
        message := (if !j.is_active then "Kích hoạt" else "Vô hiệu hóa")
          ++ " công việc thành công",
        job := some (applyToggle j t1) }
    ∧ (applyToggle j t1).is_active = !j.is_active
    ∧ j.updated_at < (applyToggle j t1).updated_at
    ∧ (toggleJob (toggleJob db j.id t1).2 j.id t2).1 =
      { status := 200,
        message := (if j.is_active then "Kích hoạt" else "Vô hiệu hóa")
          ++ " công việc thành công",
        job := some (applyToggle (applyToggle j t1) t2) }
    ∧ (applyToggle (applyToggle j t1) t2).is_active = j.is_active
    ∧ (applyToggle j t1).updated_at < (applyToggle (applyToggle j t1) t2).updated_at
    ∧ (∀ i t, (∀ x ∈ db, x.id ≠ i) →
        toggleJob db i t =
          ({ status := 404, message := "Không tìm thấy công việc", job := none }, db)) := by
  have h1 := toggleJob_found db j t1 hj hn
  have hgid : ∀ x : Job,
      ((fun x => if x.id == j.id then applyToggle x t1 else x) x).id = x.id := by
    intro x
    by_cases h : x.id == j.id <;> simp [h, applyToggle]
  have hids : ((db.map (fun x => if x.id == j.id then applyToggle x t1 else x)).map Job.id)
      = db.map Job.id := map_preserving_ids db _ hgid
  have hn1 : ((db.map (fun x => if x.id == j.id then applyToggle x t1 else x)).map
      Job.id).Nodup := by
    rw [hids]
    exact hn
  have hmem1 : applyToggle j t1 ∈
      db.map (fun x => if x.id == j.id then applyToggle x t1 else x) := by
    have hm := List.mem_map_of_mem (fun x => if x.id == j.id then applyToggle x t1 else x) hj
    simpa using hm
  have h2 : toggleJob (db.map (fun x => if x.id == j.id then applyToggle x t1 else x)) j.id t2
      = ({ status := 200,
           message := (if (applyToggle (applyToggle j t1) t2).is_active then "Kích hoạt"
             else "Vô hiệu hóa") ++ " công việc thành công",
           job := some (applyToggle (applyToggle j t1) t2) },
         (db.map (fun x => if x.id == j.id then applyToggle x t1 else x)).map
           (fun x => if x.id == j.id then applyToggle x t2 else x)) :=
    toggleJob_found _ (applyToggle j t1) t2 hmem1 hn1
  have hsnd : (toggleJob db j.id t1).2
      = db.map (fun x => if x.id == j.id then applyToggle x t1 else x) := by
    rw [h1]
  refine ⟨by rw [h1]; rfl, rfl, h0, ?_, ?_, h12, ?_⟩
  · rw [hsnd, h2]
    simp [applyToggle, Bool.not_not]
  · simp [applyToggle, Bool.not_not]
  · intro i t hnone
    have hnil : db.filter (fun x => x.id == i) = [] := by
      rw [List.filter_eq_nil_iff]
      intro x hx
      simp only [beq_iff_eq]
      exact hnone x hx
    unfold toggleJob
    rw [hnil]
    rfl

/-- C5 instantiated on a concrete one-row table with clock times 1 and 2. -/
theorem C5_witness :
    (toggleJob [sampleInactiveJob] sampleInactiveJob.id 1).1 =
      { status := 200,
        message := (if !sampleInactiveJob.is_active then "Kích hoạt" else "Vô hiệu hóa")
          ++ " công việc thành công",
        job := some (applyToggle sampleInactiveJob 1) }
    ∧ (applyToggle sampleInactiveJob 1).is_active = !sampleInactiveJob.is_active
    ∧ sampleInactiveJob.updated_at < (applyToggle sampleInactiveJob 1).updated_at
    ∧ (toggleJob (toggleJob [sampleInactiveJob] sampleInactiveJob.id 1).2
        sampleInactiveJob.id 2).1 =
      { status := 200,
        message := (if sampleInactiveJob.is_active then "Kích hoạt" else "Vô hiệu hóa")
          ++ " công việc thành công",
        job := some (applyToggle (applyToggle sampleInactiveJob 1) 2) }
    ∧ (applyToggle (applyToggle sampleInactiveJob 1) 2).is_active = sampleInactiveJob.is_active
    ∧ (applyToggle sampleInactiveJob 1).updated_at
        < (applyToggle (applyToggle sampleInactiveJob 1) 2).updated_at
    ∧ (∀ i t, (∀ x ∈ [sampleInactiveJob], x.id ≠ i) →
        toggleJob [sampleInactiveJob] i t =
          ({ status := 404, message := "Không tìm thấy công việc", job := none },
           [sampleInactiveJob])) :=
  C5_toggle_twice [sampleInactiveJob] sampleInactiveJob 1 2
    (by decide) (by decide) (by decide) (by decide)

/-! Claim C6. -/

/-- C6: the auth middleware takes the token from the Authorization header in
the `Bearer token` form; with no token it answers 401 with message `Access
token required` and the handler never runs, with a token the verifier
rejects it answers 403 with message `Invalid token` and the handler never
runs, and with a verified token it runs the handler on the decoded
identity. -/
theorem C6_auth_gate {α : Type} (verify : String → Option TokenPayload)
    (h : Option String) :
    extractToken none = none
    ∧ extractToken (some "Bearer abc123") = some "abc123"
    ∧ extractToken (some "Bearer") = none
    ∧ (∀ handler : TokenPayload → α, extractToken h = none →
        runProtected verify h handler = .denied 401 "Access token required")
    ∧ (∀ (handler : TokenPayload → α) t, extractToken h = some t → verify t = none →
        runProtected verify h handler = .denied 403 "Invalid token")
    ∧ (∀ (handler : TokenPayload → α) t u, extractToken h = some t → verify t = some u →
        runProtected verify h handler = .handled (handler u)) := by
  refine ⟨rfl, by decide, by decide, ?_, ?_, ?_⟩
  · intro handler he
    simp [runProtected, he]
  · intro handler t he hv
    simp [runProtected, he, hv]
  · intro handler t u he hv
    simp [runProtected, he, hv]

/-- C6 instantiated: a verifier accepting exactly the token `tok`. -/
theorem C6_witness :
    runProtected (fun t => if t = "tok" then some ⟨1, "admin", 0, 86400⟩ else none)
      (some "Bearer tok") (fun u => u.username) = .handled "admin"
    ∧ runProtected (fun t => if t = "tok" then some ⟨1, "admin", 0, 86400⟩ else none)
      none (fun u => u.username) = .denied 401 "Access token required"
    ∧ runProtected (fun t => if t = "tok" then some ⟨1, "admin", 0, 86400⟩ else none)
      (some "Bearer bad") (fun u => u.username) = .denied 403 "Invalid token" :=
  ⟨(C6_auth_gate (fun t => if t = "tok" then some ⟨1, "admin", 0, 86400⟩ else none)
      (some "Bearer tok")).2.2.2.2.2 (fun u => u.username) "tok" ⟨1, "admin", 0, 86400⟩
      (by decide) rfl,
   (C6_auth_gate (fun t => if t = "tok" then some ⟨1, "admin", 0, 86400⟩ else none)
      none).2.2.2.1 (fun u => u.username) rfl,
   (C6_auth_gate (fun t => if t = "tok" then some ⟨1, "admin", 0, 86400⟩ else none)
      (some "Bearer bad")).2.2.2.2.1 (fun u => u.username) "bad" (by decide) rfl⟩

/-! Claim C7. -/

/-- C7: a token issued by a successful login carries the admin id and
username and lives exactly 24 hours: issued at time T it verifies at T+23h
and is rejected at T+25h. -/
theorem C7_token_lifetime (admins : List Admin) (bc : String → String → Bool)
    (u p : String) (a : Admin) (T : Nat)
    (hu : u ≠ "") (hp : p ≠ "")
    (hfind : (admins.filter (fun x => x.username == u)).head? = some a)
    (hbc : bc p a.password = true) :
    login admins bc (some u) (some p) T =
      .success "Đăng nhập thành công" (signToken a.id a.username T) a.id a.username a.email
    ∧ (signToken a.id a.username T).id = a.id
    ∧ (signToken a.id a.username T).username = a.username
    ∧ verifyToken (signToken a.id a.username T) (T + 23 * 3600)
        = some (signToken a.id a.username T)
    ∧ verifyToken (signToken a.id a.username T) (T + 25 * 3600) = none := by
  refine ⟨?_, rfl, rfl, ?_, ?_⟩
  · simp [login, hu, hp, hfind, hbc]
  · have hlt : T + 23 * 3600 < (signToken a.id a.username T).exp := by
      simp [signToken]
    simp [verifyToken, hlt]
  · have hge : ¬ (T + 25 * 3600 < (signToken a.id a.username T).exp) := by
      simp [signToken]
    simp [verifyToken, hge]

/-- C7 witness admin row (the seeded default admin). -/
def sampleAdmin : Admin :=
  { id := 1, username := "admin", password := "hashed", email := "admin@jobportal.com"
    created_at := 0 }

/-- C7 instantiated at issue time 1000 with a comparator accepting the
witness password. -/
theorem C7_witness :
    login [sampleAdmin] (fun _ _ => true) (some "admin") (some "admin123") 1000 =
      .success "Đăng nhập thành công" (signToken sampleAdmin.id sampleAdmin.username 1000)
        sampleAdmin.id sampleAdmin.username sampleAdmin.email
    ∧ (signToken sampleAdmin.id sampleAdmin.username 1000).id = sampleAdmin.id
    ∧ (signToken sampleAdmin.id sampleAdmin.username 1000).username = sampleAdmin.username
    ∧ verifyToken (signToken sampleAdmin.id sampleAdmin.username 1000) (1000 + 23 * 3600)
        = some (signToken sampleAdmin.id sampleAdmin.username 1000)
    ∧ verifyToken (signToken sampleAdmin.id sampleAdmin.username 1000) (1000 + 25 * 3600)
        = none :=
  C7_token_lifetime [sampleAdmin] (fun _ _ => true) "admin" "admin123" sampleAdmin 1000
    (by decide) (by decide) (by decide) rfl

/-! Claim C8. -/

/-- C8: a login whose username matches no admin row gets 401 with one
message; a login whose username matches an admin but whose password fails
the hash comparison gets 401 with a different message; the two messages are
distinct. -/
theorem C8_login_distinct_messages (admins : List Admin) (bc : String → String → Bool)
    (u p : String) (T : Nat) (hu : u ≠ "") (hp : p ≠ "") :
    ((∀ a ∈ admins, a.username ≠ u) →
      login admins bc (some u) (some p) T = .fail 401 "Tài khoản không tồn tại")
    ∧ (∀ a, (admins.filter (fun x => x.username == u)).head? = some a →
        bc p a.password = false →
        login admins bc (some u) (some p) T = .fail 401 "Mật khẩu không đúng")
    ∧ ("Tài khoản không tồn tại" : String) ≠ "Mật khẩu không đúng" := by
  refine ⟨?_, ?_, by decide⟩
  · intro hnone
    have hnil : admins.filter (fun a => a.username == u) = [] := by
      rw [List.filter_eq_nil_iff]
      intro a ha
      simp only [beq_iff_eq]
      exact hnone a ha
    simp [login, hu, hp, hnil]
  · intro a hfind hbc
    simp [login, hu, hp, hfind, hbc]

/-- C8 instantiated: unknown username, then known username with a rejecting
comparator. -/
theorem C8_witness :
    login [sampleAdmin] (fun _ _ => false) (some "nobody") (some "pw") 0 =
      .fail 401 "Tài khoản không tồn tại"
    ∧ login [sampleAdmin] (fun _ _ => false) (some "admin") (some "pw") 0 =
      .fail 401 "Mật khẩu không đúng" :=
  ⟨(C8_login_distinct_messages [sampleAdmin] (fun _ _ => false) "nobody" "pw" 0
      (by decide) (by decide)).1 (by decide),
   (C8_login_distinct_messages [sampleAdmin] (fun _ _ => false) "admin" "pw" 0
      (by decide) (by decide)).2.1 sampleAdmin (by decide) rfl⟩

/-! Claim C9. -/

/-- C9: a create request supplying only the five required fields (all
non-empty) gets 201 and the created row carries the defaults
`salary_currency = "VND"`, `job_type = "Full-time"` and `is_active = true`,
with every optional column null. -/
theorem C9_create_defaults (db : List Job) (now nextId : Nat)
    (title company location description email : String)
    (ht : title ≠ "") (hc : company ≠ "") (hl : location ≠ "")
    (hd : description ≠ "") (he : email ≠ "") :
    createJob db
      { title := .str title, company := .str company, location := .str location
        salary_min := .undef, salary_max := .undef, salary_currency := .undef
        job_type := .undef, description := .str description
        requirements := .undef, benefits := .undef, contact_phone := .undef
        contact_email := .str email, is_active := none } now nextId =
      ({ status := 201, message := "Tạo công việc thành công",
         job := some
           { id := nextId, title := title, company := company, location := location
             salary_min := none, salary_max := none, salary_currency := "VND"
             job_type := "Full-time", description := description
             requirements := none, benefits := none
             contact_email := email, contact_phone := none
             is_active := true, created_at := now, updated_at := now } },
       db ++
        [{ id := nextId, title := title, company := company, location := location
           salary_min := none, salary_max := none, salary_currency := "VND"
           job_type := "Full-time", description := description
           requirements := none, benefits := none
           contact_email := email, contact_phone := none
           is_active := true, created_at := now, updated_at := now }]) := by
  simp [createJob, requiredMissing, truthy, salaryRangeBad, present, intColumnOk,
    jsToNumber, toStr, storeSalary, storeText, textOrDefault, ht, hc, hl, hd, he]

/-- C9 instantiated on the spec's example job. -/
theorem C9_witness :
    createJob []
      { title := .str "Engineer", company := .str "Acme", location := .str "Hanoi"
        salary_min := .undef, salary_max := .undef, salary_currency := .undef
        job_type := .undef, description := .str "Build things"
        requirements := .undef, benefits := .undef, contact_phone := .undef
        contact_email := .str "hr@acme.com", is_active := none } 7 1 =
      ({ status := 201, message := "Tạo công việc thành công",
         job := some
           { id := 1, title := "Engineer", company := "Acme", location := "Hanoi"
             salary_min := none, salary_max := none, salary_currency := "VND"
             job_type := "Full-time", description := "Build things"
             requirements := none, benefits := none
             contact_email := "hr@acme.com", contact_phone := none
             is_active := true, created_at := 7, updated_at := 7 } },
       [] ++
        [{ id := 1, title := "Engineer", company := "Acme", location := "Hanoi"
           salary_min := none, salary_max := none, salary_currency := "VND"
           job_type := "Full-time", description := "Build things"
           requirements := none, benefits := none
           contact_email := "hr@acme.com", contact_phone := none
           is_active := true, created_at := 7, updated_at := 7 }]) :=
  C9_create_defaults [] 7 1 "Engineer" "Acme" "Hanoi" "Build things" "hr@acme.com"
    (by decide) (by decide) (by decide) (by decide) (by decide)

/-! Claim C10. -/

/-- C10: on a create or update that passes validation, falsy optional values
are coalesced before storage — salary bounds equal to the number 0 are
stored as null, an empty-string `salary_currency` as `"VND"`, an
empty-string `job_type` as `"Full-time"`, and empty-string requirements,
benefits and contact_phone as null. -/
theorem C10_falsy_coalescing (db : List Job) (now nextId i : Nat) (r : JobReq) (j : Job)
    (hreq : requiredMissing r = false)
    (hmin : r.salary_min = .num 0) (hmax : r.salary_max = .num 0)
    (hcur : r.salary_currency = .str "") (hjt : r.job_type = .str "")
    (hreqs : r.requirements = .str "") (hben : r.benefits = .str "")
    (hph : r.contact_phone = .str "")
    (hj : j ∈ db) (hid : j.id = i) (hn : (db.map Job.id).Nodup) :
    ((createJob db r now nextId).1.status = 201
      ∧ (createJob db r now nextId).1.job = some
          { id := nextId, title := toStr r.title, company := toStr r.company
            location := toStr r.location, salary_min := none, salary_max := none
            salary_currency := "VND", job_type := "Full-time"
            description := toStr r.description, requirements := none, benefits := none
            contact_email := toStr r.contact_email, contact_phone := none
            is_active := true, created_at := now, updated_at := now })
    ∧ ((updateJob db i r now).1.status = 200
      ∧ (updateJob db i r now).1.job = some (applyUpdate j r now)
      ∧ (applyUpdate j r now).salary_min = none
      ∧ (applyUpdate j r now).salary_max = none
      ∧ (applyUpdate j r now).salary_currency = "VND"
      ∧ (applyUpdate j r now).job_type = "Full-time"
      ∧ (applyUpdate j r now).requirements = none
      ∧ (applyUpdate j r now).benefits = none
      ∧ (applyUpdate j r now).contact_phone = none) := by
  have hsal : salaryRangeBad r.salary_min r.salary_max = false := by
    rw [hmin, hmax]
    decide
  have hok : (intColumnOk r.salary_min && intColumnOk r.salary_max) = true := by
    rw [hmin, hmax]
    decide
  have hfil : db.filter (fun x => x.id == i) = [j] := by
    rw [← hid]
    exact filter_by_id db j hj hn
  refine ⟨⟨?_, ?_⟩, ?_, ?_, ?_, ?_, ?_, ?_, ?_, ?_, ?_⟩
  · simp [createJob, hreq, hsal, hok]
  · simp [createJob, hreq, salaryRangeBad, present, jsToNumber, intColumnOk,
      storeSalary, storeText, textOrDefault, truthy, hmin, hmax, hcur, hjt,
      hreqs, hben, hph]
  · simp [updateJob, hreq, hsal, hok, hfil]
  · simp [updateJob, hreq, hsal, hok, hfil]
  · simp [applyUpdate, storeSalary, truthy, hmin]
  · simp [applyUpdate, storeSalary, truthy, hmax]
  · simp [applyUpdate, textOrDefault, truthy, hcur]
  · simp [applyUpdate, textOrDefault, truthy, hjt]
  · simp [applyUpdate, storeText, truthy, hreqs]
  · simp [applyUpdate, storeText, truthy, hben]
  · simp [applyUpdate, storeText, truthy, hph]

/-- C10 instantiated on the all-falsy-optionals request and a one-row
table. -/
theorem C10_witness :
    ((createJob [sampleInactiveJob] sampleFalsyReq 5 2).1.status = 201
      ∧ (createJob [sampleInactiveJob] sampleFalsyReq 5 2).1.job = some
          { id := 2, title := toStr sampleFalsyReq.title
            company := toStr sampleFalsyReq.company
            location := toStr sampleFalsyReq.location
            salary_min := none, salary_max := none
            salary_currency := "VND", job_type := "Full-time"
            description := toStr sampleFalsyReq.description
            requirements := none, benefits := none
            contact_email := toStr sampleFalsyReq.contact_email, contact_phone := none
            is_active := true, created_at := 5, updated_at := 5 })
    ∧ ((updateJob [sampleInactiveJob] 1 sampleFalsyReq 5).1.status = 200
      ∧ (updateJob [sampleInactiveJob] 1 sampleFalsyReq 5).1.job =
          some (applyUpdate sampleInactiveJob sampleFalsyReq 5)
      ∧ (applyUpdate sampleInactiveJob sampleFalsyReq 5).salary_min = none
      ∧ (applyUpdate sampleInactiveJob sampleFalsyReq 5).salary_max = none
      ∧ (applyUpdate sampleInactiveJob sampleFalsyReq 5).salary_currency = "VND"
      ∧ (applyUpdate sampleInactiveJob sampleFalsyReq 5).job_type = "Full-time"
      ∧ (applyUpdate sampleInactiveJob sampleFalsyReq 5).requirements = none
      ∧ (applyUpdate sampleInactiveJob sampleFalsyReq 5).benefits = none
      ∧ (applyUpdate sampleInactiveJob sampleFalsyReq 5).contact_phone = none) :=
  C10_falsy_coalescing [sampleInactiveJob] 5 2 1 sampleFalsyReq sampleInactiveJob
    (by decide) rfl rfl rfl rfl rfl rfl rfl (by decide) (by decide) (by decide)
